import Mathlib

/-!
Shallow embedding of the network-intelligent-platform pipeline
(src/graph_workflow.py, src/config.py, src/chains.py, src/models.py).

External collaborators (the language model, the Neo4j store, the process
environment) are modelled as explicit inputs: each node of the LangGraph
workflow becomes a pure state transformer parameterised over the
collaborator results it consumes, and the compiled workflow becomes a
fuel-indexed interpreter over the stage graph with its two conditional
edges.
-/

namespace NIP

/-- A database row, as returned by `DatabaseManager.query`: a mapping from
column names to values (values abstracted as strings). -/
abbrev Row := List (String × String)

/-- The `database_records` channel: either the raw rows from the store or a
human-readable text payload (refusal, sentinel, or error description). -/
inductive Records where
  | rows (rs : List Row)
  | text (s : String)
deriving DecidableEq

/-- The `OverallState` TypedDict of src/models.py, together with the
`answer` channel contributed by `OutputState`. Missing TypedDict keys are
modelled by the defaults the code supplies at each `state.get` call. -/
structure OverallState where
  question : String := ""
  next_action : String := ""
  cypher_statement : String := ""
  cypher_errors : List String := []
  database_records : Option Records := none
  answer : String := ""
  steps : List String := []
deriving DecidableEq

/-- The state `GraphWorkflow.invoke` starts a run with: only `question` is
supplied; every other channel holds its default. -/
def initState (q : String) : OverallState :=
  { question := q }

/-- The `Property` model of src/models.py: one value filter extracted from
the candidate statement. -/
structure FilterProp where
  node_label : String
  property_key : String
  property_value : String
deriving DecidableEq

/-- The `ValidateCypherOutput` model of src/models.py. -/
structure ValidateCypherOutput where
  errors : Option (List String)
  filters : Option (List FilterProp)
deriving DecidableEq

/-- Python truthiness of an optional list (`if llm_output.errors:`):
`None` and `[]` contribute nothing. -/
def listOfOpt : Option (List α) → List α
  | none => []
  | some xs => xs

/-- Collaborator results consumed by one `_validate_cypher` pass:
the outcome of the `EXPLAIN` dry-run, the (optional) deterministic
direction corrector, the structured LLM validation call, the store's
`node_props` schema fragment, and the value-existence probe. -/
structure ValidateEnv where
  explainError : Option String
  corrector : Option (String → String)
  llm : String → ValidateCypherOutput
  node_props : List (String × List (String × String))
  valueExists : FilterProp → Bool

/-- The diagnostic string built at src/graph_workflow.py lines 132-134. -/
def missingMappingMsg (f : FilterProp) : String :=
  "Missing value mapping for " ++ f.node_label ++ " on property " ++
    f.property_key ++ " with value " ++ f.property_value

/-- One iteration of the filter loop (src/graph_workflow.py lines 119-134):
an advisory diagnostic is produced only for a string-typed property whose
value has no case-insensitive match in the store. -/
def filterMappingError (env : ValidateEnv) (f : FilterProp) : Option String :=
  match env.node_props.lookup f.node_label with
  | none => none
  | some props =>
    match props.find? (fun p => p.1 == f.property_key) with
    | none => none
    | some p =>
      if p.2 == "STRING" then
        if env.valueExists f then none else some (missingMappingMsg f)
      else none

/-- The syntax-error fragment of the merged fatal error list: the message of
the `CypherSyntaxError` raised by the `EXPLAIN` dry-run, when one was. -/
def explainErrorsOf (env : ValidateEnv) : List String :=
  match env.explainError with
  | some m => [m]
  | none => []

/-- The schema-fit fragment of the merged fatal error list: the corrector
returning an empty (falsy) statement means the statement fits no declared
relationship direction. -/
def schemaFitErrorsOf (env : ValidateEnv) (s : String) : List String :=
  match env.corrector with
  | none => []
  | some c =>
    if c s = "" then ["The generated Cypher statement doesn't fit the graph schema"]
    else []

/-- The statement left in `corrected_cypher` after the direction-correction
block (src/graph_workflow.py lines 100-106). -/
def correctedCypherOf (env : ValidateEnv) (s : String) : String :=
  match env.corrector with
  | none => s
  | some c => c s

/-- The statement handed to the structured LLM validation call
(src/graph_workflow.py line 112: `state.get("cypher_statement")`). -/
def llmInputOf (st : OverallState) : String :=
  st.cypher_statement

/-- The merged fatal error list of one validation pass, in the order the
code appends: syntax error, schema-fit error, LLM semantic errors. -/
def errorsOf (env : ValidateEnv) (st : OverallState) : List String :=
  explainErrorsOf env ++ schemaFitErrorsOf env st.cypher_statement ++
    listOfOpt (env.llm (llmInputOf st)).errors

/-- The advisory missing-value-mapping diagnostics of one validation pass. -/
def mappingErrorsOf (env : ValidateEnv) (st : OverallState) : List String :=
  (listOfOpt (env.llm (llmInputOf st)).filters).filterMap (filterMappingError env)

/-- `GraphWorkflow._validate_cypher` (src/graph_workflow.py lines 88-149). -/
def validate_cypher (env : ValidateEnv) (st : OverallState) : OverallState :=
  let errors0 : List String :=
    match env.explainError with
    | some m => [m]
    | none => []
  let corrected_cypher : String :=
    match env.corrector with
    | none => st.cypher_statement
    | some c => c st.cypher_statement
  let errors1 : List String :=
    match env.corrector with
    | none => errors0
    | some c =>
      if c st.cypher_statement = "" then
        errors0 ++ ["The generated Cypher statement doesn't fit the graph schema"]
      else errors0
  let llm_output := env.llm (llmInputOf st)
  let errors2 := errors1 ++ listOfOpt llm_output.errors
  let mapping_errors := (listOfOpt llm_output.filters).filterMap (filterMappingError env)
  let next_action :=
    if mapping_errors ≠ [] then "execute_cypher"
    else if errors2 ≠ [] then "correct_cypher"
    else "execute_cypher"
  { st with
    next_action := next_action
    cypher_statement := corrected_cypher
    cypher_errors := errors2
    steps := st.steps ++ ["validate_cypher"] }

/-- The fixed refusal payload set by `_guardrails` on an off-topic question. -/
def refusal_message : String :=
  "This question is not about people, organizations, or professional networking. Therefore I cannot answer this question."

/-- `GraphWorkflow._guardrails` (src/graph_workflow.py lines 57-71),
parameterised over the guardrail chain's structured decision. -/
def guardrails (decision : String) (st : OverallState) : OverallState :=
  { st with
    next_action := decision
    database_records :=
      if decision = "end" then some (Records.text refusal_message) else none
    steps := st.steps ++ ["guardrails"] }

/-- `GraphWorkflow._generate_cypher` (src/graph_workflow.py lines 73-86),
parameterised over the text2cypher chain's output. -/
def generate_cypher (generated : String) (st : OverallState) : OverallState :=
  { st with
    cypher_statement := generated
    steps := st.steps ++ ["generate_cypher"] }

/-- `GraphWorkflow._correct_cypher` (src/graph_workflow.py lines 151-164),
parameterised over the correction chain's output. -/
def correct_cypher (corrected : String) (st : OverallState) : OverallState :=
  { st with
    next_action := "validate_cypher"
    cypher_statement := corrected
    steps := st.steps ++ ["correct_cypher"] }

/-- The zero-row sentinel of `_execute_cypher`. -/
def no_results : String :=
  "I couldn't find any relevant information in the database"

/-- `GraphWorkflow._execute_cypher` (src/graph_workflow.py lines 166-182),
parameterised over the store call's outcome: rows on success, the
exception's message on failure. Both branches return normally. -/
def execute_cypher (dbResult : Except String (List Row)) (st : OverallState) : OverallState :=
  match dbResult with
  | Except.ok records =>
    { st with
      database_records :=
        some (if records.isEmpty then Records.text no_results else Records.rows records)
      next_action := "end"
      steps := st.steps ++ ["execute_cypher"] }
  | Except.error e =>
    { st with
      database_records := some (Records.text ("Error executing query: " ++ e))
      next_action := "end"
      steps := st.steps ++ ["execute_cypher"] }

/-- `GraphWorkflow._generate_final_answer` (src/graph_workflow.py lines
184-195), parameterised over the answer chain's output. -/
def generate_final_answer (ans : String) (st : OverallState) : OverallState :=
  { st with
    answer := ans
    steps := st.steps ++ ["generate_final_answer"] }

/-- `GraphWorkflow._guardrails_condition` (src/graph_workflow.py lines
197-202): the Python function falls through to `None` outside the two
recognised labels. -/
def guardrails_condition (st : OverallState) : Option String :=
  if st.next_action = "end" then some "generate_final_answer"
  else if st.next_action = "network" then some "generate_cypher"
  else none

/-- `GraphWorkflow._validate_cypher_condition` (src/graph_workflow.py lines
204-211). -/
def validate_cypher_condition (st : OverallState) : Option String :=
  if st.next_action = "end" then some "generate_final_answer"
  else if st.next_action = "correct_cypher" then some "correct_cypher"
  else if st.next_action = "execute_cypher" then some "execute_cypher"
  else none

/-- The two labels `GuardrailsOutput.decision` (src/models.py) can take. -/
def guardrailsDecisionStrings : List String := ["network", "end"]

/-- The six nodes added in `_setup_workflow`. -/
inductive Stage where
  | guardrails
  | generate_cypher
  | validate_cypher
  | correct_cypher
  | execute_cypher
  | generate_final_answer
deriving DecidableEq

/-- The node name each stage registers under. -/
def stageName : Stage → String
  | Stage.guardrails => "guardrails"
  | Stage.generate_cypher => "generate_cypher"
  | Stage.validate_cypher => "validate_cypher"
  | Stage.correct_cypher => "correct_cypher"
  | Stage.execute_cypher => "execute_cypher"
  | Stage.generate_final_answer => "generate_final_answer"

/-- Resolution of a conditional edge's returned node name. -/
def stageOfName (s : String) : Option Stage :=
  if s = "guardrails" then some Stage.guardrails
  else if s = "generate_cypher" then some Stage.generate_cypher
  else if s = "validate_cypher" then some Stage.validate_cypher
  else if s = "correct_cypher" then some Stage.correct_cypher
  else if s = "execute_cypher" then some Stage.execute_cypher
  else if s = "generate_final_answer" then some Stage.generate_final_answer
  else none

/-- All collaborator results one workflow run consumes: the guardrail
decision, the generated statement, the per-pass validation environment and
per-pass corrected statement (indexed by how many validation passes have
completed), the execution outcome, and the final answer text. -/
structure RunEnv where
  decision : String
  generated : String
  validateEnvAt : Nat → ValidateEnv
  correctedAt : Nat → String
  execResult : Except String (List Row)
  finalAnswer : String

/-- Apply one stage's node function; `k` counts completed validation
passes, selecting that pass's collaborator results. -/
def applyStage (env : RunEnv) (k : Nat) : Stage → OverallState → OverallState
  | Stage.guardrails, st => guardrails env.decision st
  | Stage.generate_cypher, st => generate_cypher env.generated st
  | Stage.validate_cypher, st => validate_cypher (env.validateEnvAt k) st
  | Stage.correct_cypher, st => correct_cypher (env.correctedAt k) st
  | Stage.execute_cypher, st => execute_cypher env.execResult st
  | Stage.generate_final_answer, st => generate_final_answer env.finalAnswer st

/-- The edges added in `_setup_workflow` (src/graph_workflow.py lines
45-52): two conditional edges, four fixed ones, END after the final
answer. `none` from a non-terminal stage is a fallen-through conditional. -/
def nextStage (s : Stage) (st : OverallState) : Option Stage :=
  match s with
  | Stage.guardrails => (guardrails_condition st).bind stageOfName
  | Stage.generate_cypher => some Stage.validate_cypher
  | Stage.validate_cypher => (validate_cypher_condition st).bind stageOfName
  | Stage.correct_cypher => some Stage.validate_cypher
  | Stage.execute_cypher => some Stage.generate_final_answer
  | Stage.generate_final_answer => none

/-- Fuel-indexed interpreter of the compiled workflow from a given stage:
returns the final state and the ordered list of stages visited, or `none`
when fuel runs out or a conditional edge falls through. -/
def runV (env : RunEnv) : Nat → Nat → Stage → OverallState → Option (OverallState × List Stage)
  | 0, _, _, _ => none
  | Nat.succ fuel, k, s, st =>
    let st1 := applyStage env k s st
    if s = Stage.generate_final_answer then some (st1, [s])
    else
      match nextStage s st1 with
      | none => none
      | some s2 =>
        match runV env fuel (if s = Stage.validate_cypher then k + 1 else k) s2 st1 with
        | none => none
        | some (stF, vs) => some (stF, s :: vs)

/-! ### Helper lemmas shared by several claims -/

theorem validate_cypher_cypher_errors (env : ValidateEnv) (st : OverallState) :
    (validate_cypher env st).cypher_errors = errorsOf env st := by
  unfold validate_cypher errorsOf explainErrorsOf schemaFitErrorsOf
  cases env.corrector with
  | none => simp
  | some c => by_cases h : c st.cypher_statement = "" <;> simp [h]

theorem validate_cypher_next_action (env : ValidateEnv) (st : OverallState) :
    (validate_cypher env st).next_action =
      if mappingErrorsOf env st ≠ [] then "execute_cypher"
      else if errorsOf env st ≠ [] then "correct_cypher"
      else "execute_cypher" := by
  unfold validate_cypher errorsOf mappingErrorsOf explainErrorsOf schemaFitErrorsOf
  cases env.corrector with
  | none => simp
  | some c => by_cases h : c st.cypher_statement = "" <;> simp [h]

/-- C5: on a zero-row success the executor's payload is the fixed
"no relevant information" sentinel rather than an empty collection; on any
store-level failure the payload is the captured error-message text and the
executor returns normally; in both cases (indeed for every outcome) the
workflow edge out of `execute_cypher` leads to `generate_final_answer`. -/
theorem executor_degrades_failures (st : OverallState) (e : String) :
    (execute_cypher (Except.ok []) st).database_records = some (Records.text no_results)
    ∧ (execute_cypher (Except.error e) st).database_records
        = some (Records.text ("Error executing query: " ++ e))
    ∧ (∀ r : Except String (List Row),
        nextStage Stage.execute_cypher (execute_cypher r st) = some Stage.generate_final_answer) :=
  ⟨rfl, rfl, fun _ => rfl⟩

/-- C6 (amended): the structured LLM validation call receives the original
uncorrected draft statement (`state.get("cypher_statement")`), not the
direction-corrected one: the validation pass's result depends on the LLM
collaborator only through its value at the uncorrected draft. -/
theorem validate_llm_sees_uncorrected_draft (env : ValidateEnv) (st : OverallState) :
    llmInputOf st = st.cypher_statement
    ∧ validate_cypher env st
        = validate_cypher { env with llm := fun _ => env.llm st.cypher_statement } st :=
  ⟨rfl, rfl⟩

/-- C7: the statement left by the direction-correction block always
replaces the candidate `cypher_statement` in the state the validation pass
returns, and this holds for both possible routing outcomes (the returned
`next_action` is always one of the two routes). -/
theorem validate_corrected_statement_replaces (env : ValidateEnv) (st : OverallState) :
    (validate_cypher env st).cypher_statement = correctedCypherOf env st.cypher_statement
    ∧ ((validate_cypher env st).next_action = "correct_cypher"
        ∨ (validate_cypher env st).next_action = "execute_cypher") := by
  refine ⟨rfl, ?_⟩
  rw [validate_cypher_next_action]
  by_cases h1 : mappingErrorsOf env st ≠ [] <;> by_cases h2 : errorsOf env st ≠ [] <;>
    simp [h1, h2]

/-- C10: the guardrail routing function returns a successor node only for
the `next_action` labels "end" and "network" — for any other value it falls
through to no successor — and for each of the two labels the structured
guardrail output can take, a successor exists, so the no-successor branch
is unreachable under that precondition. -/
theorem guardrails_condition_labels (st : OverallState) :
    (guardrails_condition st = none ↔ st.next_action ≠ "end" ∧ st.next_action ≠ "network")
    ∧ guardrails_condition { st with next_action := "end" } = some "generate_final_answer"
    ∧ guardrails_condition { st with next_action := "network" } = some "generate_cypher"
    ∧ guardrailsDecisionStrings.all
        (fun a => (guardrails_condition { st with next_action := a }).isSome) = true := by
  refine ⟨?_, rfl, rfl, rfl⟩
  unfold guardrails_condition
  split_ifs with h1 h2 <;> simp_all

/-! ### C1 / C2: routing priority and recording of advisory diagnostics -/

/-- Validation-pass collaborator results with one fatal syntax error from
the dry-run and one advisory missing-value-mapping diagnostic (a
string-typed filter whose value the existence probe does not find). -/
def cexEnvC1 : ValidateEnv :=
  { explainError := some "Invalid input"
    corrector := none
    llm := fun _ =>
      { errors := none
        filters := some [{ node_label := "Person", property_key := "id", property_value := "Neo" }] }
    node_props := [("Person", [("id", "STRING")])]
    valueExists := fun _ => false }

/-- A mid-run state entering that validation pass. -/
def cexStateC1 : OverallState :=
  { question := "q", cypher_statement := "MATCH (p:Person) RETURN p" }

/-- C1 (counterexample): a validation pass whose merged fatal error list is
non-empty routes to execution, not to correction, because an advisory
missing-value-mapping diagnostic is also present — refuting, at this
concrete input, the claim that the decision is "correct_cypher" iff the
fatal error list is non-empty and that advisory diagnostics never change
the decision. -/
theorem validate_routing_iff_cex :
    errorsOf cexEnvC1 cexStateC1 = ["Invalid input"]
    ∧ mappingErrorsOf cexEnvC1 cexStateC1
        = ["Missing value mapping for Person on property id with value Neo"]
    ∧ (validate_cypher cexEnvC1 cexStateC1).next_action = "execute_cypher"
    ∧ (validate_cypher cexEnvC1 cexStateC1).next_action ≠ "correct_cypher" := by
  refine ⟨rfl, rfl, rfl, ?_⟩
  decide

/-- C1 (amended): the routing decision is "correct_cypher" iff the merged
fatal (syntax/semantic) error list is non-empty and no advisory
missing-value-mapping diagnostic was produced in the same pass; whenever
an advisory diagnostic is present the pass routes to execution even if
fatal errors exist, and a pass with only advisory diagnostics (or none at
all) also routes to execution. -/
theorem validate_routing_decision (env : ValidateEnv) (st : OverallState) :
    ((validate_cypher env st).next_action = "correct_cypher"
      ↔ errorsOf env st ≠ [] ∧ mappingErrorsOf env st = [])
    ∧ ((validate_cypher env st).next_action = "execute_cypher"
      ↔ mappingErrorsOf env st ≠ [] ∨ errorsOf env st = []) := by
  simp only [validate_cypher_next_action]
  by_cases h1 : mappingErrorsOf env st = [] <;> by_cases h2 : errorsOf env st = [] <;>
    simp [h1, h2]

/-- Validation-pass collaborator results producing exactly one advisory
missing-value-mapping diagnostic and no fatal error of any kind. -/
def cexEnvC2 : ValidateEnv :=
  { explainError := none
    corrector := none
    llm := fun _ =>
      { errors := none
        filters := some [{ node_label := "Person", property_key := "id", property_value := "Neo" }] }
    node_props := [("Person", [("id", "STRING")])]
    valueExists := fun _ => false }

/-- A mid-run state entering that validation pass. -/
def cexStateC2 : OverallState :=
  { question := "q", cypher_statement := "MATCH (p:Person) RETURN p" }

/-- C2 (counterexample): a validation pass that produces one advisory
missing-value-mapping diagnostic leaves the state's `cypher_errors` list
empty — the advisory diagnostic is not recorded there, refuting the claim
that advisory diagnostics are preserved in the query-error list. -/
theorem validate_advisory_not_recorded_cex :
    mappingErrorsOf cexEnvC2 cexStateC2
      = ["Missing value mapping for Person on property id with value Neo"]
    ∧ (validate_cypher cexEnvC2 cexStateC2).cypher_errors = []
    ∧ (validate_cypher cexEnvC2 cexStateC2).next_action = "execute_cypher" :=
  ⟨rfl, rfl, rfl⟩

/-- C2 (amended): after every validation pass the state's `cypher_errors`
list holds exactly the merged fatal diagnostics (syntax, schema-fit, LLM
semantic errors) of that pass; the advisory missing-value-mapping
diagnostics are only printed and are never recorded in the state. -/
theorem validate_recorded_errors (env : ValidateEnv) (st : OverallState) :
    (validate_cypher env st).cypher_errors = errorsOf env st :=
  validate_cypher_cypher_errors env st

/-! ### C6: which statement the semantic/value check receives -/

/-- Validation-pass collaborator results whose direction corrector rewrites
the draft, and whose LLM reports a semantic error only when shown the
uncorrected draft. -/
def cexEnvC6a : ValidateEnv :=
  { explainError := none
    corrector := some (fun _ => "corrected query")
    llm := fun s =>
      if s = "draft query" then { errors := some ["semantic issue"], filters := none }
      else { errors := none, filters := none }
    node_props := []
    valueExists := fun _ => true }

/-- The same collaborator results with an LLM that never reports an error;
the two LLMs agree on the direction-corrected statement. -/
def cexEnvC6b : ValidateEnv :=
  { cexEnvC6a with llm := fun _ => { errors := none, filters := none } }

/-- The state entering that validation pass. -/
def cexStateC6 : OverallState :=
  { question := "q", cypher_statement := "draft query" }

/-- C6 (counterexample): the deterministic check rewrites the draft and the
two LLM collaborators agree on the direction-corrected statement, yet the
two validation passes produce different results — so the semantic/value
check cannot be receiving the corrected statement: it reads the
uncorrected draft. -/
theorem validate_llm_input_cex :
    correctedCypherOf cexEnvC6a cexStateC6.cypher_statement = "corrected query"
    ∧ cexStateC6.cypher_statement ≠ "corrected query"
    ∧ cexEnvC6a.llm "corrected query" = cexEnvC6b.llm "corrected query"
    ∧ validate_cypher cexEnvC6a cexStateC6 ≠ validate_cypher cexEnvC6b cexStateC6 := by
  refine ⟨rfl, by decide, rfl, ?_⟩
  decide

/-! ### C8: startup configuration validation (src/config.py) -/

/-- The process environment as `os.getenv` sees it. -/
structure OSEnv where
  getenv : String → Option String

/-- `os.getenv(key, default)`. -/
def getenvD (e : OSEnv) (k d : String) : String := (e.getenv k).getD d

/-- `Config.OPENAI_API_KEY` (src/config.py line 10): no default value. -/
def OPENAI_API_KEY (e : OSEnv) : Option String := e.getenv "OPENAI_API_KEY"

/-- `Config.NEO4J_URI` (src/config.py line 15): defaults to the local bolt
address when the variable is absent. -/
def NEO4J_URI (e : OSEnv) : String := getenvD e "NEO4J_URI" "bolt://localhost:7687"

/-- `Config.NEO4J_PASSWORD` (src/config.py line 17): defaults to
"password" when the variable is absent. -/
def NEO4J_PASSWORD (e : OSEnv) : String := getenvD e "NEO4J_PASSWORD" "password"

/-- Python truthiness of an optional string: `None` and `""` are falsy. -/
def strTruthy : Option String → Bool
  | none => false
  | some s => !(s == "")

/-- `Config.validate` (src/config.py lines 23-29): raising is modelled as
returning the `ValueError` message in the error case. -/
def configValidate (e : OSEnv) : Except String Unit :=
  if strTruthy (OPENAI_API_KEY e) = false then
    Except.error "OPENAI_API_KEY environment variable is required"
  else if NEO4J_PASSWORD e = "" then
    Except.error "NEO4J_PASSWORD environment variable is required"
  else Except.ok ()

/-- A process environment with the API key set and everything else,
including the store address, absent. -/
def cexOSEnvC8 : OSEnv :=
  { getenv := fun k => if k = "OPENAI_API_KEY" then some "sk-test" else none }

/-- C8 (counterexample): with the API key present but the store address
entirely absent from the environment, startup validation succeeds and the
address silently falls back to its default — refuting the claim that an
absent store address is a startup-fatal condition. -/
theorem config_missing_uri_not_fatal_cex :
    cexOSEnvC8.getenv "NEO4J_URI" = none
    ∧ configValidate cexOSEnvC8 = Except.ok ()
    ∧ NEO4J_URI cexOSEnvC8 = "bolt://localhost:7687" :=
  ⟨rfl, rfl, rfl⟩

/-- C8 (amended): startup validation succeeds iff `OPENAI_API_KEY` is set
and non-empty and `NEO4J_PASSWORD` does not resolve to the empty string
(it defaults to a non-empty value when absent); the store address is never
consulted — when absent it silently defaults to `bolt://localhost:7687`
instead of aborting startup. -/
theorem config_validate_ok_iff (e : OSEnv) :
    (configValidate e = Except.ok ()
      ↔ strTruthy (OPENAI_API_KEY e) = true ∧ NEO4J_PASSWORD e ≠ "")
    ∧ NEO4J_URI { getenv := fun _ => none } = "bolt://localhost:7687" := by
  refine ⟨?_, rfl⟩
  unfold configValidate
  by_cases h1 : strTruthy (OPENAI_API_KEY e) = false <;>
    by_cases h2 : NEO4J_PASSWORD e = "" <;> simp [h1, h2]

/-! ### C3 / C4: the step log and the off-topic short-circuit -/

theorem applyStage_steps (env : RunEnv) (k : Nat) (s : Stage) (st : OverallState) :
    (applyStage env k s st).steps = st.steps ++ [stageName s] := by
  cases s <;> try rfl
  show (execute_cypher env.execResult st).steps = _
  cases env.execResult <;> rfl

theorem runV_steps (env : RunEnv) :
    ∀ (fuel k : Nat) (s : Stage) (st stF : OverallState) (vs : List Stage),
      runV env fuel k s st = some (stF, vs) →
      stF.steps = st.steps ++ vs.map stageName := by
  intro fuel
  induction fuel with
  | zero =>
    intro k s st stF vs h
    simp [runV] at h
  | succ n ih =>
    intro k s st stF vs h
    simp only [runV] at h
    by_cases hs : s = Stage.generate_final_answer
    · rw [if_pos hs] at h
      simp only [Option.some.injEq, Prod.mk.injEq] at h
      obtain ⟨h1, h2⟩ := h
      subst h1
      subst h2
      simp [applyStage_steps]
    · rw [if_neg hs] at h
      split at h
      · cases h
      · rename_i s2 hnx
        split at h
        · cases h
        · rename_i stF2 vs2 hrec
          simp only [Option.some.injEq, Prod.mk.injEq] at h
          obtain ⟨h1, h2⟩ := h
          subst h1
          subst h2
          have hrec2 := ih (if s = Stage.validate_cypher then k + 1 else k) s2
            (applyStage env k s st) stF2 vs2 hrec
          rw [hrec2, applyStage_steps]
          simp

/-- C3: every visited stage appends exactly one entry — its own registered
node name — to the `steps` list, leaving existing entries untouched; hence
on any completed run the final `steps` list is exactly the initial list
extended by the ordered names of the visited stages, however many
correction iterations occurred. -/
theorem steps_log_is_exact_path :
    (∀ (env : RunEnv) (k : Nat) (s : Stage) (st : OverallState),
      (applyStage env k s st).steps = st.steps ++ [stageName s])
    ∧ (∀ (env : RunEnv) (fuel k : Nat) (s : Stage) (st stF : OverallState) (vs : List Stage),
        runV env fuel k s st = some (stF, vs) →
        stF.steps = st.steps ++ vs.map stageName) :=
  ⟨applyStage_steps, runV_steps⟩

/-- Collaborator results for a clean witness run: on-topic decision, a
draft that passes every check, zero rows from the store. -/
def wEnvC3 : RunEnv :=
  { decision := "network"
    generated := "MATCH (n) RETURN n"
    validateEnvAt := fun _ =>
      { explainError := none
        corrector := none
        llm := fun _ => { errors := none, filters := none }
        node_props := []
        valueExists := fun _ => true }
    correctedAt := fun _ => ""
    execResult := Except.ok []
    finalAnswer := "done" }

/-- The final state of the witness run of `wEnvC3`. -/
def wFinalC3 : OverallState :=
  { question := "hi"
    next_action := "end"
    cypher_statement := "MATCH (n) RETURN n"
    cypher_errors := []
    database_records := some (Records.text no_results)
    answer := "done"
    steps := ["guardrails", "generate_cypher", "validate_cypher", "execute_cypher",
              "generate_final_answer"] }

/-- The stages the witness run of `wEnvC3` visits. -/
def wVisitedC3 : List Stage :=
  [Stage.guardrails, Stage.generate_cypher, Stage.validate_cypher, Stage.execute_cypher,
   Stage.generate_final_answer]

/-- Witness for C3: a concrete five-stage run whose final step log is the
exact visited path. -/
theorem steps_log_is_exact_path_witness :
    (applyStage wEnvC3 0 Stage.guardrails (initState "hi")).steps
        = (initState "hi").steps ++ [stageName Stage.guardrails]
    ∧ wFinalC3.steps = (initState "hi").steps ++ wVisitedC3.map stageName :=
  ⟨steps_log_is_exact_path.1 wEnvC3 0 Stage.guardrails (initState "hi"),
   steps_log_is_exact_path.2 wEnvC3 5 0 Stage.guardrails (initState "hi") wFinalC3 wVisitedC3
     (by decide)⟩

/-- C4: whenever the guardrail classifies the question off-topic (decision
"end"), the two-step run sets the records payload to the fixed refusal
message, visits no generation, validation or execution stage, and
terminates with an empty `cypher_statement` and a step log of exactly
["guardrails", "generate_final_answer"]. -/
theorem offtopic_run_refuses (env : RunEnv) (q : String) (h : env.decision = "end") :
    runV env 2 0 Stage.guardrails (initState q)
      = some ({ question := q
                next_action := "end"
                cypher_statement := ""
                cypher_errors := []
                database_records := some (Records.text refusal_message)
                answer := env.finalAnswer
                steps := ["guardrails", "generate_final_answer"] },
              [Stage.guardrails, Stage.generate_final_answer]) := by
  simp [runV, applyStage, guardrails, generate_final_answer, nextStage,
        guardrails_condition, stageOfName, initState, h]

/-- Collaborator results for the off-topic witness run. -/
def wEnvC4 : RunEnv :=
  { decision := "end"
    generated := ""
    validateEnvAt := fun _ =>
      { explainError := none
        corrector := none
        llm := fun _ => { errors := none, filters := none }
        node_props := []
        valueExists := fun _ => true }
    correctedAt := fun _ => ""
    execResult := Except.ok []
    finalAnswer := "refused" }

/-- Witness for C4: a concrete off-topic run. -/
theorem offtopic_run_refuses_witness :
    runV wEnvC4 2 0 Stage.guardrails (initState "What is the weather?")
      = some ({ question := "What is the weather?"
                next_action := "end"
                cypher_statement := ""
                cypher_errors := []
                database_records := some (Records.text refusal_message)
                answer := wEnvC4.finalAnswer
                steps := ["guardrails", "generate_final_answer"] },
              [Stage.guardrails, Stage.generate_final_answer]) :=
  offtopic_run_refuses wEnvC4 "What is the weather?" rfl

/-! ### C9: the fixed few-shot Example Bank (src/chains.py) -/

/-- One entry of the Example Bank. -/
structure FewShotExample where
  question : String
  query : String
deriving DecidableEq

/-- `ChainManager._setup_examples` (src/chains.py lines 18-64): the fixed,
ordered Example Bank; the semantic example selector is removed. -/
def examples : List FewShotExample :=
  [ { question := "Tell me about Michael Dell"
      query := "MATCH (p:Person \x7bid: 'Michael Dell'\x7d) RETURN p.id as name" },
    { question := "What organizations does Michael Dell work for?"
      query := "MATCH (p:Person \x7bid: 'Michael Dell'\x7d)-[:WORKSFOR]->(o:Organization) RETURN o.id as organization" },
    { question := "Who does Michael Dell know?"
      query := "MATCH (p:Person \x7bid: 'Michael Dell'\x7d)-[:KNOWS]->(other:Person) RETURN other.id as person" },
    { question := "What events has Michael Dell attended?"
      query := "MATCH (p:Person \x7bid: 'Michael Dell'\x7d)-[:ATTENDEE]->(e:Event) RETURN e.id as event" },
    { question := "What is Michael Dell an alumnus of?"
      query := "MATCH (p:Person \x7bid: 'Michael Dell'\x7d)-[:ALUMNIOF]->(o:Organization) RETURN o.id as organization" },
    { question := "What topics does Michael Dell know about?"
      query := "MATCH (p:Person \x7bid: 'Michael Dell'\x7d)-[:KNOWSABOUT]->(thing:Thing) RETURN p.id AS person, thing.id AS concept" },
    { question := "Who works for Dell Technologies?"
      query := "MATCH (p:Person)-[:WORKSFOR]->(o:Organization \x7bid: 'Dell Technologies'\x7d) RETURN p.id as person" },
    { question := "What organizations are in the database?"
      query := "MATCH (o:Organization) RETURN o.id as organization" },
    { question := "What concepts does Michael Dell know about?"
      query := "MATCH (p:Person \x7bid: 'Michael Dell'\x7d)-[:KNOWSABOUT]->(thing:Thing) RETURN thing.id AS concept" },
    { question := "What are Michael Dell's professional connections?"
      query := "MATCH (p:Person \x7bid: 'Michael Dell'\x7d)-[:KNOWS]->(other:Person) RETURN other.id as connection" } ]

set_option linter.unusedVariables false in
/-- `ChainManager.get_fewshot_examples` (src/chains.py lines 203-212):
renders the first five examples, ignoring the question. -/
def get_fewshot_examples (question : String) : String :=
  String.intercalate "\n\n"
    ((examples.take 5).map fun el => "Question: " ++ el.question ++ "\n" ++ "Cypher:" ++ el.query)

set_option maxRecDepth 20000 in
/-- C9: the exemplar text supplied to the query synthesizer is identical
for any two questions (no similarity ranking), and for every question it
is exactly the first five (question, query) pairs of the fixed Example
Bank rendered verbatim in their stored order. -/
theorem fewshot_prefix_question_independent (q q' : String) :
    get_fewshot_examples q = get_fewshot_examples q'
    ∧ get_fewshot_examples q =
      "Question: Tell me about Michael Dell\nCypher:MATCH (p:Person \x7bid: 'Michael Dell'\x7d) RETURN p.id as name\n\n" ++
      "Question: What organizations does Michael Dell work for?\nCypher:MATCH (p:Person \x7bid: 'Michael Dell'\x7d)-[:WORKSFOR]->(o:Organization) RETURN o.id as organization\n\n" ++
      "Question: Who does Michael Dell know?\nCypher:MATCH (p:Person \x7bid: 'Michael Dell'\x7d)-[:KNOWS]->(other:Person) RETURN other.id as person\n\n" ++
      "Question: What events has Michael Dell attended?\nCypher:MATCH (p:Person \x7bid: 'Michael Dell'\x7d)-[:ATTENDEE]->(e:Event) RETURN e.id as event\n\n" ++
      "Question: What is Michael Dell an alumnus of?\nCypher:MATCH (p:Person \x7bid: 'Michael Dell'\x7d)-[:ALUMNIOF]->(o:Organization) RETURN o.id as organization" :=
  ⟨rfl, rfl⟩

end NIP
